import Mathlib

/-!
Verification of the fireband bandwidth collector (src/fireband.js).

The module is shallowly embedded: JS strings are `List Char`, the five
anchored regular expressions become deterministic matching functions
(each regex here is deterministic up to the one backtracking point of
`WRITE_REGEX`'s optional group, which is modelled explicitly), the two
module-level mutable variables (`lastFlushTimestamp`, `serverTimeOffset`)
become a `GlobalState` record shared by all collector instances, the
per-collector buffer (`_data`, `_dataSize`) becomes a `BufferState`
record, and a JS exception becomes the `Except.error` constructor.
`Date.now()` is passed in as an explicit `now : Int` argument.  The batch
handed to `table.insert` is returned as an `Option (List Row)` component.
-/

namespace Fireband

/-- JS `\w` character class: `[A-Za-z0-9_]`. -/
def isWordChar (c : Char) : Bool :=
  c.isAlpha || c.isDigit || c = '_'

/-- JS `.` (no `s` flag): any character except a line terminator. -/
def isDotChar (c : Char) : Bool :=
  c ≠ '\n' && c ≠ '\r' && c.val ≠ 0x2028 && c.val ≠ 0x2029

/-- Left brace character (appears in the log grammar's JSON-ish payloads). -/
def lbrace : Char := '\x7b'

/-- Match a literal string at the head of the input, returning the rest. -/
def dropLit : List Char → List Char → Option (List Char)
  | [], s => some s
  | _ :: _, [] => none
  | c :: cs, d :: ds => if c = d then dropLit cs ds else none

/-- Decimal value of a digit run (the digits of `parseInt(s, 10)`). -/
def digitsToNat (ds : List Char) : Nat :=
  ds.foldl (fun a c => 10 * a + (c.toNat - '0'.toNat)) 0

/-- `TIME_OFFSET_REGEX = /^event: \/\.info\/serverTimeOffset:value:(-?\d+)/`
followed by `parseInt(match[1], 10)`: returns the parsed signed integer. -/
def matchTimeOffset (s : List Char) : Option Int :=
  match dropLit "event: /.info/serverTimeOffset:value:".toList s with
  | none => none
  | some rest =>
    match rest with
    | '-' :: r2 =>
      let ds := r2.takeWhile Char.isDigit
      if ds.isEmpty then none else some (-(digitsToNat ds : Int))
    | _ =>
      let ds := rest.takeWhile Char.isDigit
      if ds.isEmpty then none else some (digitsToNat ds : Int)

/-- `LOG_REGEX = /^p:\d+: ([^\x7b]*)(\x7b.*)/`: returns (group 1, group 2),
the prefix segment and the payload segment. -/
def matchLog (s : List Char) : Option (List Char × List Char) :=
  match s with
  | 'p' :: ':' :: r =>
    let ds := r.takeWhile Char.isDigit
    if ds.isEmpty then none else
    match r.drop ds.length with
    | ':' :: ' ' :: r2 =>
      let g1 := r2.takeWhile (fun c => c ≠ lbrace)
      match r2.drop g1.length with
      | c :: r3 =>
        if c = lbrace then some (g1, c :: r3.takeWhile isDotChar) else none
      | [] => none
    | _ => none
  | _ => none

/-- `READ_REGEX = /^(from server:|handleServerMessage) (\w*)/`:
returns (group 1, group 2). -/
def matchRead (s : List Char) : Option (List Char × List Char) :=
  match dropLit "from server:".toList s with
  | some r =>
    match r with
    | ' ' :: r2 => some ("from server:".toList, r2.takeWhile isWordChar)
    | _ => none
  | none =>
    match dropLit "handleServerMessage".toList s with
    | some r =>
      match r with
      | ' ' :: r2 => some ("handleServerMessage".toList, r2.takeWhile isWordChar)
      | _ => none
    | none => none

/-- `READ_PATH_REGEX = /^\x7b"p":"([^"]*)"/`: returns group 1. -/
def matchReadPath (s : List Char) : Option (List Char) :=
  match dropLit "\x7b\"p\":\"".toList s with
  | none => none
  | some r =>
    let cap := r.takeWhile (fun c => c ≠ '"')
    match r.drop cap.length with
    | '"' :: _ => some cap
    | _ => none

/-- The optional group `("p":"([^"]+))?"` of `WRITE_REGEX`: it succeeds
(returning group 3) exactly when `"p":"` is followed by a non-empty run of
non-quote characters and then the regex's closing `"`; in every other case
the engine backtracks to the empty alternative. -/
def matchWriteGroup (r3 : List Char) : Option (List Char) :=
  match dropLit "\"p\":\"".toList r3 with
  | none => none
  | some r4 =>
    let cap := r4.takeWhile (fun c => c ≠ '"')
    if cap.isEmpty then none else
    match r4.drop cap.length with
    | '"' :: _ => some cap
    | _ => none

/-- `WRITE_REGEX = /^\x7b"r":\d+,"a":"(\w+)","b":\x7b("p":"([^"]+))?"/`:
returns (group 1, group 3), with the optional group attempted via
`matchWriteGroup` and the backtracked empty alternative requiring a `"`
immediately after the `"b":\x7b` literal. -/
def matchWrite (s : List Char) : Option (List Char × Option (List Char)) :=
  match dropLit "\x7b\"r\":".toList s with
  | none => none
  | some r =>
    let ds := r.takeWhile Char.isDigit
    if ds.isEmpty then none else
    match dropLit ",\"a\":\"".toList (r.drop ds.length) with
    | none => none
    | some r2 =>
      let act := r2.takeWhile isWordChar
      if act.isEmpty then none else
      match dropLit "\",\"b\":\x7b".toList (r2.drop act.length) with
      | none => none
      | some r3 =>
        match matchWriteGroup r3 with
        | some cap => some (act, some cap)
        | none =>
          match r3 with
          | '"' :: _ => some (act, none)
          | _ => none

/-- `const PROTOCOL_PATH = '/$protocol'`. -/
def PROTOCOL_PATH : List Char := "/$protocol".toList

/-- `const DEBUG_PATH = '/$debug'`. -/
def DEBUG_PATH : List Char := "/$debug".toList

/-- One row pushed to the buffer.  The parse functions build it with
`op`, `size`, `path`; `_collectLog` then sets `time` and optionally `tag`
(modelled as fields that start out `0` / `none`). -/
structure Row where
  op : Char
  size : Nat
  path : List Char
  time : ℚ
  tag : Option (List Char)
deriving DecidableEq, Repr

/-- The two module-level mutable variables, shared by every collector
instance in the process: `let lastFlushTimestamp = 0; let serverTimeOffset = 0;`. -/
structure GlobalState where
  lastFlushTimestamp : Int
  serverTimeOffset : Int
deriving DecidableEq, Repr

/-- Per-collector buffer state: `this._data` and `this._dataSize`. -/
structure BufferState where
  data : List Row
  dataSize : Nat
deriving DecidableEq, Repr

/-- The per-collector options consulted by the embedded methods. -/
structure Options where
  tag : Option (List Char)
  sizeFlushThreshold : Nat
  forcedFlushInterval : Int
deriving DecidableEq, Repr

/-- `let messageType = details[1] === 'from server: ' ? '' : details[2];`
(after `prefix.match(READ_REGEX)`); note the source compares group 1
against a string with a trailing space. -/
def readMessageType (px : List Char) : Option (List Char) :=
  (matchRead px).map fun d =>
    if d.1 = "from server: ".toList then [] else d.2

/-- `BandwidthCollector.prototype._parseReadMessage`; `none` is a bare
`return` (no row). -/
def parseReadMessage (px value : List Char) : Option Row :=
  match readMessageType px with
  | none => none
  | some messageType =>
    let size := value.length + 16 +
      (if messageType.isEmpty then 0 else 7 + messageType.length)
    if messageType = ['d'] ∨ messageType = ['m'] then
      match matchReadPath value with
      | none => none
      | some p => some ⟨'r', size, '/' :: p, 0, none⟩
    else if messageType = [] then
      some ⟨'r', size, PROTOCOL_PATH, 0, none⟩
    else if messageType = ['s', 'd'] then
      some ⟨'r', size, DEBUG_PATH, 0, none⟩
    else
      none

/-- `BandwidthCollector.prototype._parseWriteMessage`.  The source reads
`details[1]` and `details[3]` *before* its `if (!details)` check, so a
non-matching payload throws a `TypeError`, modelled as `Except.error`;
`.ok none` is a bare `return` (no row). -/
def parseWriteMessage (value : List Char) : Except (List Char) (Option Row) :=
  match matchWrite value with
  | none => .error "TypeError: Cannot read property of null".toList
  | some (messageType, path) =>
    .ok (
      let size := value.length + 16
      if messageType = ['m'] ∨ messageType = ['p'] then
        match path with
        | none => none
        | some p => some ⟨'w', size, p, 0, none⟩
      else if messageType = ['q'] ∨ messageType = ['l'] ∨ messageType = ['n'] ∨
          messageType = "auth".toList ∨ messageType = ['s'] then
        some ⟨'w', size, PROTOCOL_PATH, 0, none⟩
      else
        none)

/-- `BandwidthCollector.prototype._takeData`: returns the pending rows and
the reset buffer. -/
def takeData (b : BufferState) : List Row × BufferState :=
  (b.data, ⟨[], 0⟩)

/-- `BandwidthCollector.prototype.flush`.  Sets `lastFlushTimestamp` to
`now`, returns unchanged (no batch) on an empty buffer, and otherwise
takes and resets the pending data before handing it to `table.insert`;
the third component is the batch handed to the sink. -/
def flush (now : Int) (g : GlobalState) (b : BufferState) :
    GlobalState × BufferState × Option (List Row) :=
  let g' := { g with lastFlushTimestamp := now }
  if b.data.isEmpty then (g', b, none)
  else
    let taken := takeData b
    (g', taken.2, some taken.1)

/-- `BandwidthCollector.prototype._pushRow`: append the row, add its size,
and flush when the running size reaches the threshold. -/
def pushRow (opts : Options) (now : Int) (g : GlobalState) (b : BufferState)
    (row : Row) : GlobalState × BufferState × Option (List Row) :=
  let b' : BufferState := ⟨b.data ++ [row], b.dataSize + row.size⟩
  if b'.dataSize ≥ opts.sizeFlushThreshold then flush now g b'
  else (g, b', none)

/-- `BandwidthCollector.prototype.flushIfLate` (body inside its
`try`/`catch`; the body itself cannot throw in this model). -/
def flushIfLate (opts : Options) (now : Int) (g : GlobalState) (b : BufferState) :
    GlobalState × BufferState × Option (List Row) :=
  if now - g.lastFlushTimestamp ≥ opts.forcedFlushInterval then flush now g b
  else (g, b, none)

/-- `row.time = (Date.now() + serverTimeOffset) / 1000;` followed by
`if (this._options.tag) row.tag = this._options.tag;` (an empty tag string
is falsy and is not set). -/
def decorate (opts : Options) (now : Int) (g : GlobalState) (row : Row) : Row :=
  let row1 := { row with time := ((now + g.serverTimeOffset : Int) : ℚ) / 1000 }
  match opts.tag with
  | some t => if t.isEmpty then row1 else { row1 with tag := some t }
  | none => row1

/-- The body of `BandwidthCollector.prototype._collectLog` before its
`try`/`catch`: an `Except.error` is a JS exception escaping the body. -/
def collectLogBody (opts : Options) (now : Int) (g : GlobalState)
    (b : BufferState) (msg : List Char) :
    Except (List Char) (GlobalState × BufferState × Option (List Row)) :=
  match matchLog msg with
  | none =>
    match matchTimeOffset msg with
    | some k => .ok ({ g with serverTimeOffset := k }, b, none)
    | none => .ok (g, b, none)
  | some (px, value) =>
    let rowE : Except (List Char) (Option Row) :=
      if px.isEmpty then parseWriteMessage value
      else .ok (parseReadMessage px value)
    match rowE with
    | .error e => .error e
    | .ok none => .ok (g, b, none)
    | .ok (some row) => .ok (pushRow opts now g b (decorate opts now g row))

/-- `BandwidthCollector.prototype._collectLog` with its `try`/`catch`:
an exception from the body is caught and logged, leaving the state
untouched; the result is `Except` so that "the callback threw" is
representable (and provably never happens). -/
def collectLog (opts : Options) (now : Int) (g : GlobalState)
    (b : BufferState) (msg : List Char) :
    Except (List Char) (GlobalState × BufferState × Option (List Row)) :=
  match collectLogBody opts now g b msg with
  | .ok r => .ok r
  | .error _ => .ok (g, b, none)

/-! ## Concrete fixtures used by witnesses and counterexamples -/

/-- A payload that matches none of the write pattern's mandatory part. -/
def unmatchedWritePayload : List Char := "\x7b\"x\":1\x7d".toList

/-- A payload whose captured write path (`foo`) lacks a leading `/`. -/
def noSlashWritePayload : List Char :=
  "\x7b\"r\":1,\"a\":\"p\",\"b\":\x7b\"p\":\"foo\"".toList

/-- A read prefix in the `from server` origin carrying a word after it. -/
def fromServerPrefix : List Char := "from server: d ".toList

/-- A small read payload `\x7b"p":"x"\x7d`. -/
def readPayload : List Char := "\x7b\"p\":\"x\"\x7d".toList

/-- A server-time-offset line reporting `-250`. -/
def offsetLine : List Char := "event: /.info/serverTimeOffset:value:-250".toList

/-- Options fixture: no tag, threshold 10 bytes, interval 100 ms. -/
def optsFx : Options := ⟨none, 10, 100⟩

/-- Global-state fixture: both module variables at their initial 0. -/
def gFx : GlobalState := ⟨0, 0⟩

/-- Empty-buffer fixture. -/
def bFx : BufferState := ⟨[], 0⟩

/-- A concrete row as produced by a read of `readPayload`. -/
def rowFx : Row := ⟨'r', 33, ['/', 'x'], 0, none⟩

/-! ## Helper lemmas -/

/-- Group 1 of `READ_REGEX` is `from server:` or `handleServerMessage`,
never the trailing-space string the source compares against: the guard in
`readMessageType` is dead. -/
theorem matchRead_fst_ne_trailing (px g1 g2 : List Char)
    (h : matchRead px = some (g1, g2)) : g1 ≠ "from server: ".toList := by
  unfold matchRead at h
  split at h
  · split at h
    · cases h with
      | refl => decide
    · exact absurd h (by simp)
  · split at h
    · split at h
      · cases h with
        | refl => decide
      · exact absurd h (by simp)
    · exact absurd h (by simp)

/-- A captured write path is non-empty (the group's `[^"]+` needs at least
one character). -/
theorem matchWriteGroup_ne_nil (r3 cap : List Char)
    (h : matchWriteGroup r3 = some cap) : cap ≠ [] := by
  unfold matchWriteGroup at h
  split at h
  · exact absurd h (by simp)
  · dsimp only at h
    split at h
    · exact absurd h (by simp)
    · split at h
      · injection h with h2
        subst h2
        simp_all [List.isEmpty_iff]
      · exact absurd h (by simp)

/-- `matchWrite` only reports captured paths produced by `matchWriteGroup`. -/
theorem matchWrite_path_ne_nil (s a p : List Char)
    (h : matchWrite s = some (a, some p)) : p ≠ [] := by
  unfold matchWrite at h
  split at h
  · exact absurd h (by simp)
  · dsimp only at h
    split at h
    · exact absurd h (by simp)
    · split at h
      · exact absurd h (by simp)
      · split at h
        · exact absurd h (by simp)
        · split at h
          · exact absurd h (by simp)
          · split at h
            · rename_i cap hg
              cases h with
              | refl => exact matchWriteGroup_ne_nil _ _ hg
            · split at h
              · exact absurd h (by simp)
              · exact absurd h (by simp)

/-! ## Claim theorems -/

/-- C8: for every raw input line (arbitrary string) and every collector
state, the line-collection callback `_collectLog` never propagates an
exception to its caller: its `try`/`catch` turns any fault raised during
classification or buffering into a logged no-op. -/
theorem collectLog_never_throws (opts : Options) (now : Int) (g : GlobalState)
    (b : BufferState) (msg : List Char) :
    (collectLog opts now g b msg).isOk = true := by
  unfold collectLog
  cases collectLogBody opts now g b msg <;> rfl

/-- C2: refuted by evaluation — on a payload segment the write pattern does
not match, `_parseWriteMessage` reads `details[1]` off the `null` match
result before its null check, so it throws a `TypeError` instead of logging
and returning no event; the fault is only absorbed by `_collectLog`'s
catch-all, which leaves the state untouched. -/
theorem parseWriteMessage_throws_on_unmatched (opts : Options) (now : Int)
    (g : GlobalState) (b : BufferState) :
    parseWriteMessage unmatchedWritePayload =
      .error "TypeError: Cannot read property of null".toList ∧
    collectLogBody opts now g b ("p:0: ".toList ++ unmatchedWritePayload) =
      .error "TypeError: Cannot read property of null".toList ∧
    collectLog opts now g b ("p:0: ".toList ++ unmatchedWritePayload) =
      .ok (g, b, none) := by
  refine ⟨rfl, rfl, ?_⟩
  rfl

/-- C9: refuted by evaluation — group 1 of the read pattern is
`from server:` (no trailing space), so the source's comparison against
`'from server: '` never fires and `messageType` is always group 2: a
`from server` prefix followed by a word (here `d`) yields that word, not
the empty string, and the line is handled as a data read. -/
theorem readMessageType_from_server_not_empty :
    matchRead fromServerPrefix = some ("from server:".toList, ['d']) ∧
    readMessageType fromServerPrefix = some ['d'] ∧
    readMessageType fromServerPrefix ≠ some [] ∧
    parseReadMessage fromServerPrefix readPayload =
      some ⟨'r', 33, ['/', 'x'], 0, none⟩ := by
  refine ⟨rfl, rfl, ?_, rfl⟩
  decide

/-- C3 counterexample: a write line whose captured path is `foo`
produces an Event whose path does not begin with `/`, refuting the claim
that every classified Event's path starts with `/`. -/
theorem write_event_path_without_slash :
    parseWriteMessage noSlashWritePayload =
      .ok (some ⟨'w', 45, ['f', 'o', 'o'], 0, none⟩) ∧
    (['f', 'o', 'o'] : List Char).head? ≠ some '/' := by
  refine ⟨rfl, ?_⟩
  decide

/-- C3 (amended): every classified Event's path is non-empty; a read
event's path always begins with `/`, and a write event's path either
begins with `/` (the protocol sentinel) or is verbatim the path captured
by the write pattern, which need not begin with `/`. -/
theorem event_path_nonempty_and_slash (px value : List Char) (row : Row) :
    (parseReadMessage px value = some row →
      row.path ≠ [] ∧ row.path.head? = some '/') ∧
    (parseWriteMessage value = .ok (some row) →
      row.path ≠ [] ∧ (row.path.head? = some '/' ∨
        ∃ a, matchWrite value = some (a, some row.path))) := by
  constructor
  · intro h
    unfold parseReadMessage at h
    rcases hmt : readMessageType px with _ | mt <;> rw [hmt] at h
    · exact absurd h (by simp)
    · dsimp only at h
      split at h
      · rcases hp : matchReadPath value with _ | p <;> rw [hp] at h
        · exact absurd h (by simp)
        · injection h with h2
          subst h2
          exact ⟨show '/' :: p ≠ [] from List.cons_ne_nil _ _,
            show ('/' :: p).head? = some '/' from rfl⟩
      · split at h
        · injection h with h2
          subst h2
          exact ⟨show PROTOCOL_PATH ≠ [] by decide,
            show PROTOCOL_PATH.head? = some '/' from rfl⟩
        · split at h
          · injection h with h2
            subst h2
            exact ⟨show DEBUG_PATH ≠ [] by decide,
              show DEBUG_PATH.head? = some '/' from rfl⟩
          · exact absurd h (by simp)
  · intro h
    unfold parseWriteMessage at h
    rcases hmw : matchWrite value with _ | ⟨mt, pth⟩ <;> rw [hmw] at h
    · exact absurd h (by simp)
    · injection h with h2
      dsimp only at h2
      split at h2
      · rcases pth with _ | p
        · exact absurd h2 (by simp)
        · injection h2 with h3
          subst h3
          refine ⟨matchWrite_path_ne_nil _ _ _ hmw, Or.inr ⟨mt, ?_⟩⟩
          simp [hmw]
      · split at h2
        · injection h2 with h3
          subst h3
          exact ⟨show PROTOCOL_PATH ≠ [] by decide,
            Or.inl (show PROTOCOL_PATH.head? = some '/' from rfl)⟩
        · exact absurd h2 (by simp)

/-- C3 witness: the amended path property evaluated on a concrete read
line (`handleServerMessage d ` with payload `\x7b"p":"x"\x7d`). -/
theorem event_path_nonempty_and_slash_witness :
    (rowFx.path ≠ [] ∧ rowFx.path.head? = some '/') :=
  (event_path_nonempty_and_slash "handleServerMessage d ".toList readPayload
    rowFx).1 (by rfl)

/-- C4: a classified read event's size is the payload length + 16, plus
7 + length of the computed message type exactly when that is non-empty; a
classified write event's size is the payload length + 16 exactly. -/
theorem event_size_formula (px value mt : List Char) (row : Row) :
    (readMessageType px = some mt → parseReadMessage px value = some row →
      row.size = value.length + 16 +
        (if mt = [] then 0 else 7 + mt.length)) ∧
    (parseWriteMessage value = .ok (some row) →
      row.size = value.length + 16) := by
  constructor
  · intro hmt h
    unfold parseReadMessage at h
    rw [hmt] at h
    dsimp only at h
    have hsize : ∀ p t g,
        row = Row.mk 'r' (value.length + 16 +
          (if mt.isEmpty then 0 else 7 + mt.length)) p t g →
        row.size = value.length + 16 + (if mt = [] then 0 else 7 + mt.length) := by
      intro p t g he
      subst he
      simp [List.isEmpty_iff]
    split at h
    · rcases hp : matchReadPath value with _ | p <;> rw [hp] at h
      · exact absurd h (by simp)
      · injection h with h2
        exact hsize _ _ _ h2.symm
    · split at h
      · injection h with h2
        exact hsize _ _ _ h2.symm
      · split at h
        · injection h with h2
          exact hsize _ _ _ h2.symm
        · exact absurd h (by simp)
  · intro h
    unfold parseWriteMessage at h
    rcases hmw : matchWrite value with _ | ⟨a, pth⟩ <;> rw [hmw] at h
    · exact absurd h (by simp)
    · injection h with h2
      dsimp only at h2
      split at h2
      · rcases pth with _ | p
        · exact absurd h2 (by simp)
        · injection h2 with h3
          subst h3
          rfl
      · split at h2
        · injection h2 with h3
          subst h3
          rfl
        · exact absurd h2 (by simp)

/-- C4 witness: the size formula evaluated on a concrete read event
(payload of length 9, message type `d`) and write event (payload of
length 29). -/
theorem event_size_formula_witness :
    rowFx.size = readPayload.length + 16 +
        (if (['d'] : List Char) = [] then 0 else 7 + (['d'] : List Char).length) ∧
    (Row.mk 'w' 45 ['f', 'o', 'o'] 0 none).size = noSlashWritePayload.length + 16 :=
  ⟨(event_size_formula "handleServerMessage d ".toList readPayload ['d']
      rowFx).1 (by rfl) (by rfl),
   (event_size_formula [] noSlashWritePayload [] (Row.mk 'w' 45 ['f', 'o', 'o'] 0 none)).2
      (by rfl)⟩

/-- C1: flushing a non-empty buffer hands the sink exactly the pending
rows in arrival order, and the buffer it leaves behind is empty with zero
running size (the reset happens before the batch is delivered); a row not
pending at flush time is not in the batch, and a row pushed after the
reset is appended to the fresh buffer or emitted in a fresh batch — never
silently dropped. -/
theorem flush_takes_pending_batch (opts : Options) (now now2 : Int)
    (g g2 : GlobalState) (b : BufferState) (h : b.data ≠ []) :
    (flush now g b).2.2 = some b.data ∧
    (flush now g b).2.1.data = [] ∧
    (flush now g b).2.1.dataSize = 0 ∧
    (∀ r : Row, r ∉ b.data →
      ∀ batch, (flush now g b).2.2 = some batch → r ∉ batch) ∧
    (∀ r : Row,
      r ∈ (pushRow opts now2 g2 (flush now g b).2.1 r).2.1.data ∨
      ∃ batch, (pushRow opts now2 g2 (flush now g b).2.1 r).2.2 = some batch ∧
        r ∈ batch) := by
  have hb : b.data.isEmpty = false := by
    simpa [List.isEmpty_iff] using h
  have hf : flush now g b =
      ({ g with lastFlushTimestamp := now }, ⟨[], 0⟩, some b.data) := by
    unfold flush takeData
    rw [hb]
    rfl
  refine ⟨by rw [hf], by rw [hf], by rw [hf], ?_, ?_⟩
  · intro r hr batch hbatch
    rw [hf] at hbatch
    injection hbatch with h2
    exact h2 ▸ hr
  · intro r
    rw [hf]
    unfold pushRow flush takeData
    dsimp only
    by_cases hc : 0 + r.size ≥ opts.sizeFlushThreshold
    · rw [if_pos hc]
      rw [if_neg (by simp)]
      exact Or.inr ⟨[r], rfl, by simp⟩
    · rw [if_neg hc]
      exact Or.inl (by simp)

/-- C1 witness: flushing a buffer holding one concrete row. -/
theorem flush_takes_pending_batch_witness :
    (flush 9 gFx ⟨[rowFx], 33⟩).2.2 = some [rowFx] ∧
    (flush 9 gFx ⟨[rowFx], 33⟩).2.1.data = [] ∧
    (flush 9 gFx ⟨[rowFx], 33⟩).2.1.dataSize = 0 :=
  have hth := flush_takes_pending_batch optsFx 9 10 gFx gFx ⟨[rowFx], 33⟩
    (by simp)
  ⟨hth.1, hth.2.1, hth.2.2.1⟩

/-- C5: a push that brings the running size to the threshold or beyond
triggers exactly one synchronous flush — the result carries the single
batch (the pending rows, the new one last) and an empty, zero-size
buffer — while a push that stays below the threshold appends the row,
adds its size, and triggers no flush. -/
theorem pushRow_threshold_flush (opts : Options) (now : Int) (g : GlobalState)
    (b : BufferState) (row : Row) :
    (b.dataSize + row.size ≥ opts.sizeFlushThreshold →
      pushRow opts now g b row =
        ({ g with lastFlushTimestamp := now }, ⟨[], 0⟩,
          some (b.data ++ [row]))) ∧
    (b.dataSize + row.size < opts.sizeFlushThreshold →
      pushRow opts now g b row =
        (g, ⟨b.data ++ [row], b.dataSize + row.size⟩, none)) := by
  constructor
  · intro h
    unfold pushRow flush takeData
    dsimp only
    rw [if_pos h, if_neg (by simp)]
  · intro h
    unfold pushRow
    dsimp only
    rw [if_neg (by omega)]

/-- C5 witness: one concrete push reaching the 10-byte threshold flushes
and leaves an empty buffer; one staying below does not. -/
theorem pushRow_threshold_flush_witness :
    pushRow optsFx 7 gFx bFx rowFx =
      ({ gFx with lastFlushTimestamp := 7 }, ⟨[], 0⟩, some [rowFx]) ∧
    pushRow ⟨none, 100, 100⟩ 7 gFx bFx rowFx =
      (gFx, ⟨[rowFx], 33⟩, none) :=
  ⟨(pushRow_threshold_flush optsFx 7 gFx bFx rowFx).1 (by decide),
   (pushRow_threshold_flush ⟨none, 100, 100⟩ 7 gFx bFx rowFx).2 (by decide)⟩

/-- C7: `flushIfLate` leaves everything unchanged (no flush, same
last-flush instant) while the elapsed time since the last flush is below
the forced-flush interval, and otherwise performs exactly the one `flush`
call, which sets the shared last-flush instant to now even when the
buffer is empty. -/
theorem flushIfLate_interval (opts : Options) (now : Int) (g : GlobalState)
    (b : BufferState) :
    (now - g.lastFlushTimestamp < opts.forcedFlushInterval →
      flushIfLate opts now g b = (g, b, none)) ∧
    (now - g.lastFlushTimestamp ≥ opts.forcedFlushInterval →
      flushIfLate opts now g b = flush now g b ∧
      (flushIfLate opts now g b).1.lastFlushTimestamp = now ∧
      (b.data = [] → flushIfLate opts now g b =
        ({ g with lastFlushTimestamp := now }, b, none))) := by
  constructor
  · intro h
    unfold flushIfLate
    rw [if_neg (by omega)]
  · intro h
    have he : flushIfLate opts now g b = flush now g b := by
      unfold flushIfLate
      rw [if_pos h]
    refine ⟨he, ?_, ?_⟩
    · rw [he]
      unfold flush takeData
      dsimp only
      split <;> rfl
    · intro hnil
      rw [he]
      unfold flush takeData
      rw [if_pos (by simp [hnil])]

/-- C7 witness: with interval 100 and last flush at 0, a tick at 50
changes nothing, and a tick at 150 on an empty buffer advances the
last-flush instant to 150 without emitting a batch. -/
theorem flushIfLate_interval_witness :
    flushIfLate optsFx 50 gFx bFx = (gFx, bFx, none) ∧
    flushIfLate optsFx 150 gFx bFx =
      ({ gFx with lastFlushTimestamp := 150 }, bFx, none) :=
  ⟨(flushIfLate_interval optsFx 50 gFx bFx).1 (by decide),
   ((flushIfLate_interval optsFx 150 gFx bFx).2 (by decide)).2.2 rfl⟩

/-- C6: an offset line overwrites (never accumulates into) the shared
`serverTimeOffset` with exactly the parsed signed integer, and an Event
classified afterwards is stamped with `(now + offset) / 1000`: the
decoration applied by `_collectLog` gives every row that timestamp, and a
read line pushed after the update goes through `pushRow` carrying it. -/
theorem offset_overwrite_and_timestamp (opts : Options) (now now2 : Int)
    (g : GlobalState) (b : BufferState) (msg : List Char) (k : Int)
    (h1 : matchLog msg = none) (h2 : matchTimeOffset msg = some k) :
    collectLog opts now g b msg =
      .ok ({ g with serverTimeOffset := k }, b, none) ∧
    (∀ row : Row, (decorate opts now2 { g with serverTimeOffset := k } row).time =
      ((now2 + k : Int) : ℚ) / 1000) ∧
    (∀ msg2 px value row, matchLog msg2 = some (px, value) → px ≠ [] →
      parseReadMessage px value = some row →
      collectLog opts now2 { g with serverTimeOffset := k } b msg2 =
        .ok (pushRow opts now2 { g with serverTimeOffset := k } b
          (decorate opts now2 { g with serverTimeOffset := k } row))) := by
  refine ⟨?_, ?_, ?_⟩
  · unfold collectLog collectLogBody
    rw [h1, h2]
  · intro row
    unfold decorate
    dsimp only
    cases opts.tag with
    | none => rfl
    | some t =>
      dsimp only
      split <;> rfl
  · intro msg2 px value row hlog hpx hrow
    have hpe : px.isEmpty = false := by
      simpa [List.isEmpty_iff] using hpx
    unfold collectLog collectLogBody
    rw [hlog]
    dsimp only
    simp only [hpe, Bool.false_eq_true, if_false, hrow]

/-- C6 witness: the offset line `-250` overwrites a previous offset of 7,
and the concrete row then gets timestamp `(1000 - 250) / 1000 = 3/4`. -/
theorem offset_overwrite_and_timestamp_witness :
    collectLog optsFx 5 ⟨0, 7⟩ bFx offsetLine =
      .ok (⟨0, -250⟩, bFx, none) ∧
    (decorate optsFx 1000 ⟨0, -250⟩ rowFx).time = (3 : ℚ) / 4 :=
  have hth := offset_overwrite_and_timestamp optsFx 5 1000 ⟨0, 7⟩ bFx
    offsetLine (-250) (by rfl) (by rfl)
  ⟨hth.1, by rw [hth.2.1 rowFx]; norm_num⟩

/-- C10: `lastFlushTimestamp` is module-level state shared by every
collector instance: a flush performed by one instance (on its own buffer)
moves the shared last-flush instant, and a later `flushIfLate` tick of a
different instance (different options and buffer) within the interval of
that instant is thereby suppressed, even if it would have fired relative
to the instant it last observed. -/
theorem lastFlush_shared_across_instances (opts2 : Options) (t now : Int)
    (g : GlobalState) (b1 b2 : BufferState)
    (h : now - t < opts2.forcedFlushInterval) :
    (flush t g b1).1.lastFlushTimestamp = t ∧
    flushIfLate opts2 now (flush t g b1).1 b2 = ((flush t g b1).1, b2, none) := by
  have hg : (flush t g b1).1 = { g with lastFlushTimestamp := t } := by
    unfold flush takeData
    dsimp only
    split <;> rfl
  refine ⟨by rw [hg], ?_⟩
  rw [hg]
  unfold flushIfLate
  rw [if_neg (show ¬now - t ≥ opts2.forcedFlushInterval by omega)]

/-- C10 witness: instance 1 flushes a row at t = 1000; instance 2's tick
at t = 1500 with a 60000 ms interval is suppressed, although 1500 is past
instance 2's own last observation (0) plus nothing. -/
theorem lastFlush_shared_across_instances_witness :
    (flush 1000 gFx ⟨[rowFx], 33⟩).1.lastFlushTimestamp = 1000 ∧
    flushIfLate ⟨none, 10, 60000⟩ 1500 (flush 1000 gFx ⟨[rowFx], 33⟩).1 bFx =
      ((flush 1000 gFx ⟨[rowFx], 33⟩).1, bFx, none) :=
  lastFlush_shared_across_instances ⟨none, 10, 60000⟩ 1000 1500 gFx
    ⟨[rowFx], 33⟩ bFx (by decide)

end Fireband
